import Mathlib

/-!
Verification of the exchange-migration-web orchestration core.

Shallow embedding of the migration session orchestrator:
* data model from src/types/migration.ts;
* batch loop, per-item processing and session mutation from
  src/app/api/migrate/route.ts (processMigration, POST);
* pure utilities (calculateStats, validateMailbox, simulateMigration,
  generateReportHTML, duration formatting) from src/lib/migration-utils.ts;
* mock-connector lookup from src/lib/exchange-connector.ts;
* SSE progress stream from src/app/api/progress/route.ts;
* CSV report rows from src/app/api/report/route.ts.

Wall-clock readings, random draws and the connector's answers are passed in
as explicit parameters; asynchronous per-item continuations are modelled as
atomic steps (in the source each continuation is a synchronous block with no
await inside, so every interleaving is a sequence of these steps).
-/

namespace ExchangeMigration

/-! ## Data model (src/types/migration.ts) -/

/-- `MigrationResult.Status`: `'In Progress' | 'Completed' | 'Failed'`. -/
inductive MigStatus where
  | inProgress
  | completed
  | failed
  deriving DecidableEq, Repr

/-- The literal status strings stored in TypeScript. -/
def MigStatus.text : MigStatus → String
  | .inProgress => "In Progress"
  | .completed => "Completed"
  | .failed => "Failed"

structure MailboxRow where
  SourceEmail : String
  TargetEmail : String
  DisplayName : String
  deriving DecidableEq, Repr

structure MigrationResult where
  SourceEmail : String
  TargetEmail : String
  DisplayName : String
  StartTime : String
  EndTime : Option String
  Duration : Option String
  Status : MigStatus
  ItemsMigrated : Nat
  DataMigrated : String
  ErrorMessage : String
  deriving DecidableEq, Repr

structure MigrationStats where
  Total : Nat
  Successful : Nat
  Failed : Nat
  Skipped : Nat
  InProgress : Nat
  deriving DecidableEq, Repr

structure MigrationConfig where
  BatchSize : Nat
  ValidateOnly : Bool
  SkipValidation : Bool
  ReportPath : String
  deriving DecidableEq, Repr

/-- `LogEntry.level` from src/types/migration.ts. -/
inductive LogLevel where
  | info
  | success
  | warning
  | error
  | progress
  deriving DecidableEq, Repr

structure LogEntry where
  timestamp : String
  level : LogLevel
  message : String
  mailboxId : Option String
  deriving DecidableEq, Repr

inductive SessionStatus where
  | idle
  | validating
  | ready
  | migrating
  | completed
  | error
  deriving DecidableEq, Repr

structure MigrationSession where
  id : String
  config : MigrationConfig
  mailboxList : List MailboxRow
  migrationResults : List MigrationResult
  stats : MigrationStats
  logs : List LogEntry
  status : SessionStatus
  startTime : String
  endTime : Option String
  deriving DecidableEq, Repr

/-- JavaScript `a || b` on an optional string: `null`, `undefined` and the
empty string are falsy. -/
def jsOr (v : Option String) (d : String) : String :=
  match v with
  | none => d
  | some s => if s = "" then d else s

/-! ## Pure utilities (src/lib/migration-utils.ts) -/

/-- `calculateStats` (migration-utils.ts lines 161-169): a pure aggregation
of a result list. -/
def calculateStats (results : List MigrationResult) : MigrationStats :=
  { Total := results.length
    Successful := (results.filter (fun r => decide (r.Status = MigStatus.completed))).length
    Failed := (results.filter (fun r => decide (r.Status = MigStatus.failed))).length
    InProgress := (results.filter (fun r => decide (r.Status = MigStatus.inProgress))).length
    Skipped := 0 }

/-- `n.toString().padStart(2, '0')`: pad the decimal rendering on the left
with zeros to length at least two (never truncates). -/
def padTwo (n : Nat) : String :=
  let s := toString n
  if s.length < 2 then "0" ++ s else s

/-- Duration rendering from `simulateMigration` (migration-utils.ts lines
144-147): total minutes (`floor(ms / 60000)`, not reduced mod 60) and
seconds, each zero-padded to at least two digits, joined by a colon. -/
def formatDuration (durationMs : Nat) : String :=
  padTwo (durationMs / 60000) ++ ":" ++ padTwo (durationMs % 60000 / 1000)

/-- The connector's answer to `startMigration` (exchange-connector.ts):
`{ success, error? }`; the `moveRequestId` is unused by the caller. -/
structure MoveOutcome where
  success : Bool
  error : Option String
  deriving DecidableEq, Repr

/-- The ambient inputs of one `simulateMigration` call: the two wall-clock
readings, the measured delta, the connector's outcome, and the two random
draws used on success (`ItemsMigrated`, `DataMigrated`). -/
structure ItemEnv where
  startTime : String
  endTime : String
  durationMs : Nat
  move : MoveOutcome
  itemsMigrated : Nat
  dataMigrated : String
  deriving DecidableEq, Repr

/-- `simulateMigration` (migration-utils.ts lines 118-159): builds an
In-Progress result, awaits the connector, stamps end time and duration, then
sets the terminal status from the connector's outcome. -/
def simulateMigration (mailbox : MailboxRow) (env : ItemEnv) : MigrationResult :=
  let result : MigrationResult :=
    { SourceEmail := mailbox.SourceEmail
      TargetEmail := mailbox.TargetEmail
      DisplayName := mailbox.DisplayName
      StartTime := env.startTime
      EndTime := none
      Duration := none
      Status := MigStatus.inProgress
      ItemsMigrated := 0
      DataMigrated := "0 MB"
      ErrorMessage := "" }
  let result := { result with
      EndTime := some env.endTime
      Duration := some (formatDuration env.durationMs) }
  if env.move.success then
    { result with
        Status := MigStatus.completed
        ItemsMigrated := env.itemsMigrated
        DataMigrated := env.dataMigrated }
  else
    { result with
        Status := MigStatus.failed
        ErrorMessage := jsOr env.move.error "Migration failed" }

/-! ## Batch orchestrator (src/app/api/migrate/route.ts) -/

/-- Session initialisation from `POST` (migrate/route.ts lines 25-42): empty
result list, `stats.Total` set to the INPUT list's length, other counters
zero, status `migrating`. -/
def initSession (sessionId : String) (config : MigrationConfig)
    (mailboxList : List MailboxRow) (startTs : String) : MigrationSession :=
  { id := sessionId
    config := config
    mailboxList := mailboxList
    migrationResults := []
    stats :=
      { Total := mailboxList.length
        Successful := 0
        Failed := 0
        Skipped := 0
        InProgress := 0 }
    logs := []
    status := SessionStatus.migrating
    startTime := startTs
    endTime := none }

/-- How one item's awaited work ends: the `simulateMigration` promise
resolves with the inputs in `ItemEnv`, or it rejects; `some msg` is a thrown
`Error` (whose `.message` is `msg`), `none` any other thrown value. -/
inductive ItemRun where
  | ok (env : ItemEnv)
  | exn (startTs endTs : String) (err : Option String)
  deriving Repr

/-- The result built in the `catch` branch of `processMigration`
(migrate/route.ts lines 106-117). -/
def failedResult (mailbox : MailboxRow) (startTs endTs : String)
    (err : Option String) : MigrationResult :=
  { SourceEmail := mailbox.SourceEmail
    TargetEmail := mailbox.TargetEmail
    DisplayName := mailbox.DisplayName
    StartTime := startTs
    EndTime := some endTs
    Duration := some "00:00"
    Status := MigStatus.failed
    ItemsMigrated := 0
    DataMigrated := "0 MB"
    ErrorMessage := err.getD "Unknown error" }

/-- One item's post-await continuation (migrate/route.ts lines 83-121),
which runs synchronously: on resolution, increment `Successful` or `Failed`,
push the result, then overwrite `stats` with `calculateStats` of the new
list; on rejection, increment `Failed` and push a `failedResult` (no
recompute of `stats`). -/
def processItem (s : MigrationSession) (mailbox : MailboxRow)
    (run : ItemRun) : MigrationSession :=
  match run with
  | ItemRun.ok env =>
      let result := simulateMigration mailbox env
      let s1 :=
        if result.Status = MigStatus.completed then
          { s with stats := { s.stats with Successful := s.stats.Successful + 1 } }
        else
          { s with stats := { s.stats with Failed := s.stats.Failed + 1 } }
      let s2 := { s1 with migrationResults := s1.migrationResults ++ [result] }
      { s2 with stats := calculateStats s2.migrationResults }
  | ItemRun.exn startTs endTs err =>
      let s1 := { s with stats := { s.stats with Failed := s.stats.Failed + 1 } }
      { s1 with
          migrationResults := s1.migrationResults ++ [failedResult mailbox startTs endTs err] }

/-- The outcome one item contributes to `session.migrationResults`. -/
def itemResult : MailboxRow × ItemRun → MigrationResult
  | (mailbox, ItemRun.ok env) => simulateMigration mailbox env
  | (mailbox, ItemRun.exn startTs endTs err) => failedResult mailbox startTs endTs err

/-- One batch's fan-out (`Promise.all` over the per-item continuations),
sequentialised: each continuation is an atomic `processItem` step. -/
def runItems (s : MigrationSession) : List (MailboxRow × ItemRun) → MigrationSession
  | [] => s
  | (mailbox, run) :: rest => runItems (processItem s mailbox run) rest

/-- The strictly sequential batch loop of `processMigration` (the inter-batch
pause changes no session state). -/
def runBatches (s : MigrationSession) : List (List (MailboxRow × ItemRun)) → MigrationSession
  | [] => s
  | b :: rest => runBatches (runItems s b) rest

/-- The slicing loop of `processMigration` (migrate/route.ts lines 73-74):
`for (i = 0; i < N; i += batchSize) slice(i, i + batchSize)`. The source
applies no clamping to `config.BatchSize`; with a batch size of 0 the
source loop never advances (it diverges), modelled here as producing no
batches, and theorems about batch shape assume a positive size. -/
def batches {α : Type} (l : List α) (B : Nat) : List (List α) :=
  match l, B with
  | _, 0 => []
  | [], _ + 1 => []
  | x :: xs, b + 1 => ((x :: xs).take (b + 1)) :: batches ((x :: xs).drop (b + 1)) (b + 1)
termination_by l.length
decreasing_by simp; omega

/-- End of `processMigration` (migrate/route.ts lines 135-143): status
`completed`, end time stamped, logs copied into the session. -/
def finishSession (s : MigrationSession) (endTs : String)
    (logs : List LogEntry) : MigrationSession :=
  { s with status := SessionStatus.completed, endTime := some endTs, logs := logs }

/-- The session states the migrate route can produce: the freshly
initialised session, any single-item continuation applied to a reachable
state, and the completion step. Batch structure adds no other mutation, so
every state the orchestrator ever stores is of this shape. -/
inductive Reachable : MigrationSession → Prop where
  | init (sessionId : String) (config : MigrationConfig)
      (mailboxList : List MailboxRow) (startTs : String) :
      Reachable (initSession sessionId config mailboxList startTs)
  | item (s : MigrationSession) (mailbox : MailboxRow) (run : ItemRun) :
      Reachable s → Reachable (processItem s mailbox run)
  | finish (s : MigrationSession) (endTs : String) (logs : List LogEntry) :
      Reachable s → Reachable (finishSession s endTs logs)

/-! ## Validator (migration-utils.ts, exchange-connector.ts) -/

/-- The connector's `validateMailbox` answer (exchange-connector.ts lines
93-99). -/
structure SourceLookup where
  exists_ : Bool
  size : Option ℚ
  itemCount : Option Nat
  database : Option String
  error : Option String
  deriving DecidableEq, Repr

/-- `email.split('').reduce((a, b) => a + b.charCodeAt(0), 0)`: the sum of
the email's character codes (migration-utils.ts line 53, exchange-connector.ts
line 102). -/
def hashEmail (email : String) : Nat :=
  email.toList.foldl (fun a c => a + c.toNat) 0

/-- The mock branch of `ExchangeConnector.validateMailbox`
(exchange-connector.ts lines 100-114): existence is the deterministic hash
gate, the size is `Math.random() * 5000 + 100` (with `r` the random draw in
`[0,1)`), the item count another random draw. -/
def mockLookup (email : String) (r : ℚ) (items : Nat) : SourceLookup :=
  if hashEmail email % 10 ≠ 0 then
    { exists_ := true
      size := some (r * 5000 + 100)
      itemCount := some items
      database := some "SimulatedDB01"
      error := none }
  else
    { exists_ := false
      size := none
      itemCount := none
      database := none
      error := some "Mailbox not found" }

inductive VStatus where
  | passed
  | warning
  | failed
  deriving DecidableEq, Repr

structure ValidationResult where
  SourceEmail : String
  TargetEmail : String
  DisplayName : String
  SourceExists : Bool
  TargetExists : Bool
  SourceSize : ℚ
  ValidationStatus : VStatus
  ValidationMessages : List String
  ValidationIssues : List String
  deriving DecidableEq, Repr

/-- The regex `/^[^\s@]+@[^\s@]+\.[^\s@]+$/` (migration-utils.ts line 69):
a non-empty run of non-space non-at characters, an `@`, then a domain with
no space and no further `@` containing a dot that is neither its first nor
its last character. `Char.isWhitespace` stands in for the regex class
`\s`. -/
def emailRegexTest (s : String) : Bool :=
  let cs := s.toList
  let localPart := cs.takeWhile (fun c => c ≠ '@')
  match cs.dropWhile (fun c => c ≠ '@') with
  | [] => false
  | _ :: domain =>
      decide (localPart ≠ []) &&
      localPart.all (fun c => !c.isWhitespace) &&
      decide (domain ≠ []) &&
      domain.all (fun c => !c.isWhitespace && c ≠ '@') &&
      ((domain.drop 1).dropLast.contains '.')

/-- `itemCount?.toLocaleString()` interpolated into a template string:
`"undefined"` when the count is absent (locale separators elided). -/
def itemCountText (itemCount : Option Nat) : String :=
  match itemCount with
  | some n => toString n
  | none => "undefined"

/-- `validateMailbox` (migration-utils.ts lines 62-116). Fail and return at
once when the source does not exist or the target address fails the regex
(the size check is skipped); otherwise push the success messages, then mark
Warning when the source size exceeds 10000 MB, else leave Passed. -/
def validateMailbox (mailbox : MailboxRow) (sourceValidation : SourceLookup) :
    ValidationResult :=
  let targetEmailValid := emailRegexTest mailbox.TargetEmail
  let validation : ValidationResult :=
    { SourceEmail := mailbox.SourceEmail
      TargetEmail := mailbox.TargetEmail
      DisplayName := mailbox.DisplayName
      SourceExists := sourceValidation.exists_
      TargetExists := false
      SourceSize := sourceValidation.size.getD 0
      ValidationStatus := VStatus.passed
      ValidationMessages := []
      ValidationIssues := [] }
  if !sourceValidation.exists_ then
    { validation with
        ValidationStatus := VStatus.failed
        ValidationIssues := ["Source mailbox not found"]
        ValidationMessages :=
          ["Source mailbox " ++ mailbox.SourceEmail ++ " does not exist"] }
  else if !targetEmailValid then
    { validation with
        ValidationStatus := VStatus.failed
        ValidationIssues := ["Invalid target email format"]
        ValidationMessages :=
          ["Target email " ++ mailbox.TargetEmail ++ " is not valid"] }
  else
    let m1 :=
      ["Source mailbox exists (" ++ toString (round (validation.SourceSize)) ++ "MB, "
        ++ itemCountText sourceValidation.itemCount ++ " items)"]
    let m2 :=
      match sourceValidation.database with
      | some db => m1 ++ ["Database: " ++ db]
      | none => m1
    if validation.SourceSize > 10000 then
      { validation with
          ValidationStatus := VStatus.warning
          ValidationIssues := ["Large mailbox (>10GB) - migration may take extended time"]
          ValidationMessages :=
            m2 ++ ["⚠️ Large mailbox detected - consider scheduling during off-hours"] }
    else
      { validation with ValidationMessages := m2 }

/-! ## Progress stream (src/app/api/progress/route.ts) -/

/-- The events `sendEvent` can emit (progress/route.ts lines 25-67). -/
inductive SSEvent where
  | connected
  | log (entry : LogEntry)
  | progress (stats : MigrationStats) (status : SessionStatus)
      (migrationResults : List MigrationResult)
  | complete (session : MigrationSession) (logs : List LogEntry)
  | error
  deriving DecidableEq, Repr

def SSEvent.isError : SSEvent → Bool
  | SSEvent.error => true
  | _ => false

def SSEvent.isProgress : SSEvent → Bool
  | SSEvent.progress _ _ _ => true
  | _ => false

def SSEvent.isComplete : SSEvent → Bool
  | SSEvent.complete _ _ => true
  | _ => false

/-- One consumer's stream: the events emitted so far and whether
`controller.close()` has run. -/
structure StreamState where
  events : List SSEvent
  closed : Bool
  deriving DecidableEq, Repr

/-- `getSession` (migrate/route.ts lines 147-149) over the in-memory map,
modelled as an association list. -/
def getSession (store : List (String × MigrationSession)) (sessionId : String) :
    Option MigrationSession :=
  (store.find? (fun p => p.1 = sessionId)).map Prod.snd

/-- `getSessionLogger` (migrate/route.ts lines 152-154); a logger is its log
list. -/
def getSessionLogger (loggers : List (String × List LogEntry)) (sessionId : String) :
    Option (List LogEntry) :=
  (loggers.find? (fun p => p.1 = sessionId)).map Prod.snd

/-- What one tick of the interval sees: the session and its logger, or
`none` when either lookup fails (the `!session || !logger` guard). -/
def sessionView (store : List (String × MigrationSession))
    (loggers : List (String × List LogEntry)) (sessionId : String) :
    Option (MigrationSession × List LogEntry) :=
  match getSession store sessionId, getSessionLogger loggers sessionId with
  | some s, some lg => some (s, lg)
  | _, _ => none

/-- One `setInterval` tick (progress/route.ts lines 28-68): after close,
nothing runs; on a failed lookup, one `error` event and close; otherwise the
latest log entry (when any), a `progress` snapshot, and on terminal session
status one `complete` event and close. -/
def tickOnce (view : Option (MigrationSession × List LogEntry))
    (st : StreamState) : StreamState :=
  if st.closed then st
  else
    match view with
    | none => { events := st.events ++ [SSEvent.error], closed := true }
    | some (session, logs) =>
        let logEvents :=
          match logs.getLast? with
          | some entry => [SSEvent.log entry]
          | none => []
        let emitted :=
          logEvents ++ [SSEvent.progress session.stats session.status session.migrationResults]
        if session.status = SessionStatus.completed ∨ session.status = SessionStatus.error then
          { events := st.events ++ emitted ++ [SSEvent.complete session logs], closed := true }
        else
          { events := st.events ++ emitted, closed := false }

/-- The stream after `n` ticks: the `connected` acknowledgment is sent
before the interval starts; `viewAt t` is what the `t`-th tick reads from
the (possibly mutating) session store. -/
def streamRun (viewAt : Nat → Option (MigrationSession × List LogEntry)) :
    Nat → StreamState
  | 0 => { events := [SSEvent.connected], closed := false }
  | n + 1 => tickOnce (viewAt n) (streamRun viewAt n)

/-- The progress route's stream for one `sessionId`, reading the two stores
fresh at every tick (progress/route.ts `GET`). -/
def progressStream (storeAt : Nat → List (String × MigrationSession))
    (loggersAt : Nat → List (String × List LogEntry))
    (sessionId : String) (n : Nat) : StreamState :=
  streamRun (fun t => sessionView (storeAt t) (loggersAt t) sessionId) n

/-! ## Report generator (src/app/api/report/route.ts, migration-utils.ts) -/

/-- The CSV column headers (report/route.ts lines 40-51). -/
def csvHeader : List String :=
  ["Display Name", "Source Email", "Target Email", "Status", "Start Time",
   "End Time", "Duration", "Items Migrated", "Data Migrated", "Error Message"]

/-- One CSV row (report/route.ts lines 25-36), cells in the fixed column
order. -/
def csvRow (result : MigrationResult) : List String :=
  [result.DisplayName,
   result.SourceEmail,
   result.TargetEmail,
   result.Status.text,
   result.StartTime,
   jsOr result.EndTime "N/A",
   jsOr result.Duration "N/A",
   toString result.ItemsMigrated,
   result.DataMigrated,
   jsOr (some result.ErrorMessage) ""]

/-- The stringified CSV as a row list: the header row (from
`stringify(..., { header: true })`) followed by one row per result. Cell
quoting is the CSV library's concern and is not modelled. -/
def csvReport (results : List MigrationResult) : List (List String) :=
  csvHeader :: results.map csvRow

/-- The row's CSS class (migration-utils.ts line 240). -/
def statusClass (result : MigrationResult) : String :=
  if result.Status = MigStatus.completed then "status-completed" else "status-failed"

/-- One `<tr>` of the HTML report's results table (migration-utils.ts lines
241-250), the template's interpolations spliced in. -/
def reportRowHtml (result : MigrationResult) : String :=
  "\n                <tr>\n                    <td>" ++ result.DisplayName
    ++ "</td>\n                    <td>" ++ result.SourceEmail
    ++ "</td>\n                    <td>" ++ result.TargetEmail
    ++ "</td>\n                    <td class=\"" ++ statusClass result ++ "\">"
    ++ result.Status.text
    ++ "</td>\n                    <td>" ++ jsOr result.Duration "N/A"
    ++ "</td>\n                    <td>" ++ toString result.ItemsMigrated
    ++ "</td>\n                    <td>" ++ result.DataMigrated
    ++ "</td>\n                </tr>"

/-- The document up to the table body: title, generated-at stamp and the
four aggregate counters (the static markup and the `<style>` block are
elided as inert text). -/
def reportHead (stats : MigrationStats) (genTime : String) : String :=
  "<!DOCTYPE html><html><head><title>Exchange Mailbox Migration Report</title></head><body>"
    ++ "<h1>📊 Exchange Mailbox Migration Report</h1><p><strong>Generated:</strong> "
    ++ genTime ++ "</p><div class=\"summary\">"
    ++ "<div class=\"stat-number\">" ++ toString stats.Total ++ "</div>"
    ++ "<div class=\"stat-number\">" ++ toString stats.Successful ++ "</div>"
    ++ "<div class=\"stat-number\">" ++ toString stats.Failed ++ "</div>"
    ++ "<div class=\"stat-number\">" ++ toString stats.InProgress ++ "</div>"
    ++ "</div><h2>Migration Results</h2><table><tbody>"

def reportTail : String :=
  "\n            </tbody></table></body></html>"

/-- `generateReportHTML` (migration-utils.ts lines 171-261): one table row
per migration result between the static head and tail. -/
def generateReportHTML (results : List MigrationResult) (stats : MigrationStats)
    (genTime : String) : String :=
  reportHead stats genTime ++ String.join (results.map reportRowHtml) ++ reportTail

/-! ## Sample inputs for concrete instantiations -/

def sampleConfig : MigrationConfig :=
  { BatchSize := 10, ValidateOnly := false, SkipValidation := false, ReportPath := "" }

def sampleMailbox : MailboxRow :=
  { SourceEmail := "a@x.com", TargetEmail := "a@y.com", DisplayName := "A" }

def sampleEnv : ItemEnv :=
  { startTime := "2024-01-01T00:00:00Z"
    endTime := "2024-01-01T00:00:05Z"
    durationMs := 5000
    move := { success := true, error := none }
    itemsMigrated := 1200
    dataMigrated := "1.50 GB" }

def sampleResult : MigrationResult :=
  simulateMigration sampleMailbox sampleEnv

/-- A successful item whose wall-clock delta is 65 minutes (3 900 000 ms). -/
def wrapEnv : ItemEnv :=
  { startTime := "2024-01-01T00:00:00Z"
    endTime := "2024-01-01T01:05:00Z"
    durationMs := 3900000
    move := { success := true, error := none }
    itemsMigrated := 5000
    dataMigrated := "2.00 GB" }

/-- Sixty identical mailbox rows, for exercising the batch loop with a
batch size above 50. -/
def sixtyRows : List MailboxRow :=
  List.replicate 60 sampleMailbox

/-! ## Helper lemmas -/

/-- Every result's status is one of the three constructors, so the three
status filters partition the list. -/
theorem status_filter_sum (l : List MigrationResult) :
    (l.filter (fun r => decide (r.Status = MigStatus.completed))).length
      + (l.filter (fun r => decide (r.Status = MigStatus.failed))).length
      + (l.filter (fun r => decide (r.Status = MigStatus.inProgress))).length
      = l.length := by
  induction l with
  | nil => simp
  | cons a l ih =>
      cases h : a.Status <;> simp [List.filter_cons, h] <;> omega

theorem calculateStats_sum (l : List MigrationResult) :
    (calculateStats l).Successful + (calculateStats l).Failed
      + (calculateStats l).InProgress = l.length :=
  status_filter_sum l

theorem simulateMigration_status (mailbox : MailboxRow) (env : ItemEnv) :
    (simulateMigration mailbox env).Status =
      (if env.move.success then MigStatus.completed else MigStatus.failed) := by
  simp only [simulateMigration]
  split <;> rfl

theorem processItem_ok_stats (s : MigrationSession) (mailbox : MailboxRow)
    (env : ItemEnv) :
    (processItem s mailbox (ItemRun.ok env)).stats
      = calculateStats (processItem s mailbox (ItemRun.ok env)).migrationResults := by
  simp only [processItem]

theorem processItem_results (s : MigrationSession) (mailbox : MailboxRow)
    (run : ItemRun) :
    (processItem s mailbox run).migrationResults
      = s.migrationResults ++ [itemResult (mailbox, run)] := by
  cases run with
  | ok env =>
      simp only [processItem, itemResult]
      split <;> rfl
  | exn startTs endTs err => rfl

theorem runItems_results (items : List (MailboxRow × ItemRun)) (s : MigrationSession) :
    (runItems s items).migrationResults
      = s.migrationResults ++ items.map itemResult := by
  induction items generalizing s with
  | nil => simp [runItems]
  | cons p rest ih =>
      obtain ⟨mailbox, run⟩ := p
      simp [runItems, ih, processItem_results]

theorem runBatches_results (bs : List (List (MailboxRow × ItemRun)))
    (s : MigrationSession) :
    (runBatches s bs).migrationResults
      = s.migrationResults ++ bs.flatten.map itemResult := by
  induction bs generalizing s with
  | nil => simp [runBatches]
  | cons b rest ih => simp [runBatches, ih, runItems_results]

theorem batches_nil {α : Type} (B : Nat) : batches ([] : List α) B = [] := by
  cases B <;> simp [batches]

theorem batches_cons {α : Type} (x : α) (xs : List α) (b : Nat) :
    batches (x :: xs) (b + 1)
      = ((x :: xs).take (b + 1)) :: batches ((x :: xs).drop (b + 1)) (b + 1) := by
  simp [batches]

theorem batches_length_aux {α : Type} (b : Nat) :
    ∀ (n : Nat) (l : List α), l.length ≤ n →
      (batches l (b + 1)).length = (l.length + b) / (b + 1) := by
  intro n
  induction n with
  | zero =>
      intro l hl
      have hnil : l = [] := by
        cases l with
        | nil => rfl
        | cons x xs => simp at hl
      subst hnil
      rw [batches_nil]
      simp only [List.length_nil, Nat.zero_add]
      exact (Nat.div_eq_of_lt (by omega)).symm
  | succ n ih =>
      intro l hl
      cases l with
      | nil =>
          rw [batches_nil]
          simp only [List.length_nil, Nat.zero_add]
          exact (Nat.div_eq_of_lt (by omega)).symm
      | cons x xs =>
          simp only [List.length_cons] at hl
          have hdlen : ((x :: xs).drop (b + 1)).length ≤ n := by
            simp only [List.length_drop, List.length_cons]
            omega
          rw [batches_cons, List.length_cons, ih _ hdlen]
          simp only [List.length_drop, List.length_cons]
          rcases le_or_lt xs.length b with hle | hlt
          · have h0 : xs.length + 1 - (b + 1) = 0 := by omega
            rw [h0]
            have h1 : (0 + b) / (b + 1) = 0 := Nat.div_eq_of_lt (by omega)
            have h2 : (xs.length + 1 + b) / (b + 1) = 1 :=
              Nat.div_eq_of_lt_le (by omega) (by omega)
            omega
          · have h1 : xs.length + 1 - (b + 1) + b = xs.length := by omega
            have h2 : xs.length + 1 + b = xs.length + (b + 1) := by omega
            rw [h1, h2, Nat.add_div_right _ (by omega)]

theorem batches_flatten_aux {α : Type} (b : Nat) :
    ∀ (n : Nat) (l : List α), l.length ≤ n → (batches l (b + 1)).flatten = l := by
  intro n
  induction n with
  | zero =>
      intro l hl
      have hnil : l = [] := by
        cases l with
        | nil => rfl
        | cons x xs => simp at hl
      subst hnil
      simp [batches_nil]
  | succ n ih =>
      intro l hl
      cases l with
      | nil => simp [batches_nil]
      | cons x xs =>
          simp only [List.length_cons] at hl
          have hdlen : ((x :: xs).drop (b + 1)).length ≤ n := by
            simp only [List.length_drop, List.length_cons]
            omega
          rw [batches_cons, List.flatten_cons, ih _ hdlen]
          exact List.take_append_drop _ _

theorem batches_ne_nil {α : Type} (x : α) (xs : List α) (b : Nat) :
    batches (x :: xs) (b + 1) ≠ [] := by
  rw [batches_cons]
  exact List.cons_ne_nil _ _

theorem batches_dropLast_aux {α : Type} (b : Nat) :
    ∀ (n : Nat) (l : List α), l.length ≤ n →
      ∀ c ∈ (batches l (b + 1)).dropLast, c.length = b + 1 := by
  intro n
  induction n with
  | zero =>
      intro l hl c hc
      have hnil : l = [] := by
        cases l with
        | nil => rfl
        | cons x xs => simp at hl
      subst hnil
      simp [batches_nil] at hc
  | succ n ih =>
      intro l hl c hc
      cases l with
      | nil => simp [batches_nil] at hc
      | cons x xs =>
          simp only [List.length_cons] at hl
          have hdlen : ((x :: xs).drop (b + 1)).length ≤ n := by
            simp only [List.length_drop, List.length_cons]
            omega
          rw [batches_cons] at hc
          rcases hrest : batches ((x :: xs).drop (b + 1)) (b + 1) with _ | ⟨y, ys⟩
          · rw [hrest] at hc
            simp at hc
          · rw [hrest, List.dropLast_cons₂, List.mem_cons] at hc
            rcases hc with rfl | hc'
            · have hlong : b + 1 ≤ (x :: xs).length := by
                by_contra hcon
                push_neg at hcon
                rw [List.drop_eq_nil_of_le (by omega), batches_nil] at hrest
                exact (List.cons_ne_nil y ys) hrest.symm
              simp only [List.length_take, List.length_cons] at hlong ⊢
              omega
            · have hrec := ih ((x :: xs).drop (b + 1)) hdlen
              rw [hrest] at hrec
              exact hrec c hc'

theorem batches_getLast_aux {α : Type} (b : Nat) :
    ∀ (n : Nat) (l : List α), l.length ≤ n →
      ∀ c, (batches l (b + 1)).getLast? = some c →
        c.length = (if l.length % (b + 1) = 0 then b + 1 else l.length % (b + 1)) := by
  intro n
  induction n with
  | zero =>
      intro l hl c hc
      have hnil : l = [] := by
        cases l with
        | nil => rfl
        | cons x xs => simp at hl
      subst hnil
      rw [batches_nil] at hc
      simp at hc
  | succ n ih =>
      intro l hl c hc
      cases l with
      | nil =>
          rw [batches_nil] at hc
          simp at hc
      | cons x xs =>
          simp only [List.length_cons] at hl ⊢
          rw [batches_cons] at hc
          rcases hdrop : (x :: xs).drop (b + 1) with _ | ⟨d, ds⟩
          · -- the whole list fits in one final batch
            rw [hdrop, batches_nil] at hc
            simp only [List.getLast?_singleton, Option.some.injEq] at hc
            subst hc
            have hshort : xs.length + 1 ≤ b + 1 := by
              by_contra hcon
              push_neg at hcon
              have hne : (x :: xs).drop (b + 1) ≠ [] := by
                apply List.ne_nil_of_length_pos
                simp only [List.length_drop, List.length_cons]
                omega
              exact hne hdrop
            rcases Nat.lt_or_ge (xs.length + 1) (b + 1) with hlt | hge
            · have hmod : (xs.length + 1) % (b + 1) = xs.length + 1 :=
                Nat.mod_eq_of_lt hlt
              rw [hmod, if_neg (by omega)]
              simp only [List.length_take, List.length_cons]
              omega
            · have hlen : xs.length + 1 = b + 1 := by omega
              rw [hlen]
              simp [List.length_take, Nat.mod_self]
              omega
          · rw [hdrop] at hc
            rcases hrest : batches (d :: ds) (b + 1) with _ | ⟨y, ys⟩
            · exact absurd hrest (batches_ne_nil d ds b)
            · rw [hrest, List.getLast?_cons_cons] at hc
              have hlong : b + 1 ≤ xs.length + 1 := by
                by_contra hcon
                push_neg at hcon
                have hdnil : (x :: xs).drop (b + 1) = [] :=
                  List.drop_eq_nil_of_le (by simp only [List.length_cons]; omega)
                rw [hdnil] at hdrop
                exact (List.cons_ne_nil d ds) hdrop.symm
              have hdlen : (d :: ds).length = xs.length + 1 - (b + 1) := by
                rw [← hdrop, List.length_drop, List.length_cons]
              have hdle : (d :: ds).length ≤ n := by
                simp only [List.length_cons] at hdlen ⊢
                omega
              have hrec := ih (d :: ds) hdle c (by rw [hrest]; exact hc)
              rw [hrec, hdlen]
              have hmod : (xs.length + 1 - (b + 1)) % (b + 1)
                  = (xs.length + 1) % (b + 1) :=
                (Nat.mod_eq_sub_mod hlong).symm
              rw [hmod]

/-- Full characterisation of `validateMailbox`: the status and the issue
list depend only on the existence answer, the target-address test and the
size threshold, in that short-circuit order. -/
theorem validateMailbox_char (m : MailboxRow) (lk : SourceLookup) :
    (validateMailbox m lk).ValidationStatus =
      (if lk.exists_ = false then VStatus.failed
       else if emailRegexTest m.TargetEmail = false then VStatus.failed
       else if 10000 < lk.size.getD 0 then VStatus.warning
       else VStatus.passed) ∧
    (validateMailbox m lk).ValidationIssues =
      (if lk.exists_ = false then ["Source mailbox not found"]
       else if emailRegexTest m.TargetEmail = false then ["Invalid target email format"]
       else if 10000 < lk.size.getD 0 then
         ["Large mailbox (>10GB) - migration may take extended time"]
       else []) := by
  cases h1 : lk.exists_ <;> cases h2 : emailRegexTest m.TargetEmail <;>
    by_cases h3 : ((10000 : ℚ) < lk.size.getD 0) <;>
      simp [validateMailbox, h1, h2, h3]

/-- Appending one Failed result adds one to the Failed counter and leaves
the other counters of `calculateStats` unchanged. -/
theorem calculateStats_append_failed (l : List MigrationResult) (r : MigrationResult)
    (hr : r.Status = MigStatus.failed) :
    (calculateStats (l ++ [r])).Successful = (calculateStats l).Successful ∧
    (calculateStats (l ++ [r])).Failed = (calculateStats l).Failed + 1 ∧
    (calculateStats (l ++ [r])).InProgress = (calculateStats l).InProgress ∧
    (calculateStats (l ++ [r])).Skipped = (calculateStats l).Skipped := by
  simp [calculateStats, List.filter_append, List.filter_cons, hr]

/-- Every result ever appended to a reachable session is terminal: the
success path appends `simulateMigration`'s output (Completed or Failed) and
the error path appends a Failed `failedResult`. -/
theorem reachable_results_terminal (s : MigrationSession) (h : Reachable s) :
    ∀ r ∈ s.migrationResults,
      r.Status = MigStatus.completed ∨ r.Status = MigStatus.failed := by
  induction h with
  | init sessionId config mailboxList startTs => simp [initSession]
  | item s mailbox run hs ih =>
      intro r hr
      rw [processItem_results, List.mem_append] at hr
      rcases hr with hr | hr
      · exact ih r hr
      · simp only [List.mem_singleton] at hr
        subst hr
        cases run with
        | ok env =>
            cases hsuc : env.move.success with
            | false =>
                right
                simp [itemResult, simulateMigration_status, hsuc]
            | true =>
                left
                simp [itemResult, simulateMigration_status, hsuc]
        | exn startTs endTs err =>
            right
            rfl
  | finish s endTs logs hs ih => simpa [finishSession] using ih

theorem calculateStats_inProgress_zero (l : List MigrationResult)
    (h : ∀ r ∈ l, r.Status ≠ MigStatus.inProgress) :
    (calculateStats l).InProgress = 0 := by
  simp only [calculateStats]
  rw [List.length_eq_zero, List.filter_eq_nil_iff]
  intro r hr
  simpa using h r hr

/-! ## Claim theorems -/

/-- C1: in every session state the orchestrator can produce — hence at
every progress tick the Progress Notifier observes — the sum
`stats.Successful + stats.Failed + stats.InProgress` equals
`migrationResults.length`: the success path recomputes `stats` with
`calculateStats` over the full list, and the error path adds one Failed
counter together with one pushed result. -/
theorem stats_sum_eq_results_length (s : MigrationSession) (h : Reachable s) :
    s.stats.Successful + s.stats.Failed + s.stats.InProgress
      = s.migrationResults.length := by
  induction h with
  | init sessionId config mailboxList startTs => simp [initSession]
  | item s mailbox run hs ih =>
      cases run with
      | ok env =>
          rw [processItem_ok_stats]
          exact calculateStats_sum _
      | exn startTs endTs err =>
          simp only [processItem, List.length_append, List.length_cons,
            List.length_nil]
          omega
  | finish s endTs logs hs ih => simpa [finishSession] using ih

/-- Witness for C1 at a concrete freshly created one-mailbox session. -/
theorem stats_sum_eq_results_length_witness :
    (initSession "s1" sampleConfig [sampleMailbox] "t0").stats.Successful
      + (initSession "s1" sampleConfig [sampleMailbox] "t0").stats.Failed
      + (initSession "s1" sampleConfig [sampleMailbox] "t0").stats.InProgress
      = (initSession "s1" sampleConfig [sampleMailbox] "t0").migrationResults.length :=
  stats_sum_eq_results_length _ (Reachable.init "s1" sampleConfig [sampleMailbox] "t0")

/-- C10: a reachable session's result list only ever holds terminal
outcomes (Completed or Failed) — `simulateMigration` never returns the
In-Progress status it starts from, and the catch branch builds a Failed
result — so recomputing stats from the list always gives
`InProgress = 0`. -/
theorem results_terminal_inProgress_zero (s : MigrationSession) (h : Reachable s) :
    (∀ r ∈ s.migrationResults, r.Status ≠ MigStatus.inProgress) ∧
    (calculateStats s.migrationResults).InProgress = 0 := by
  have hterm := reachable_results_terminal s h
  have hne : ∀ r ∈ s.migrationResults, r.Status ≠ MigStatus.inProgress := by
    intro r hr
    rcases hterm r hr with h1 | h1 <;> simp [h1]
  exact ⟨hne, calculateStats_inProgress_zero _ hne⟩

/-- Witness for C10 after one successful item has been processed. -/
theorem results_terminal_inProgress_zero_witness :
    (∀ r ∈ (processItem (initSession "s2" sampleConfig [sampleMailbox] "t0")
        sampleMailbox (ItemRun.ok sampleEnv)).migrationResults,
      r.Status ≠ MigStatus.inProgress) ∧
    (calculateStats (processItem (initSession "s2" sampleConfig [sampleMailbox] "t0")
        sampleMailbox (ItemRun.ok sampleEnv)).migrationResults).InProgress = 0 :=
  results_terminal_inProgress_zero _
    (Reachable.item _ _ _ (Reachable.init "s2" sampleConfig [sampleMailbox] "t0"))

/-- C3 counterexample: at session creation the stored stats do NOT equal
`calculateStats` of the (empty) result list — `POST` sets
`stats.Total := mailboxList.length` (here 1) while `calculateStats []`
has `Total = 0`. -/
theorem stats_not_calculateStats_cex :
    Reachable (initSession "s3" sampleConfig [sampleMailbox] "t0") ∧
    (initSession "s3" sampleConfig [sampleMailbox] "t0").stats
      ≠ calculateStats
          (initSession "s3" sampleConfig [sampleMailbox] "t0").migrationResults :=
  ⟨Reachable.init "s3" sampleConfig [sampleMailbox] "t0", by decide⟩

/-- C3 amended: in every reachable session state the `Successful`,
`Failed`, `InProgress` and `Skipped` fields of `stats` agree with
`calculateStats migrationResults`; only the `Total` field can differ (it
holds the input-list length at creation and is refreshed only on the
success path). -/
theorem stats_components_eq_calculateStats (s : MigrationSession) (h : Reachable s) :
    s.stats.Successful = (calculateStats s.migrationResults).Successful ∧
    s.stats.Failed = (calculateStats s.migrationResults).Failed ∧
    s.stats.InProgress = (calculateStats s.migrationResults).InProgress ∧
    s.stats.Skipped = (calculateStats s.migrationResults).Skipped := by
  induction h with
  | init sessionId config mailboxList startTs => simp [initSession, calculateStats]
  | item s mailbox run hs ih =>
      obtain ⟨i1, i2, i3, i4⟩ := ih
      cases run with
      | ok env =>
          rw [processItem_ok_stats]
          exact ⟨rfl, rfl, rfl, rfl⟩
      | exn startTs endTs err =>
          obtain ⟨c1, c2, c3, c4⟩ :=
            calculateStats_append_failed s.migrationResults
              (failedResult mailbox startTs endTs err) rfl
          simp only [processItem]
          exact ⟨by simp [c1, i1], by simp [c2, i2], by simp [c3, i3], by simp [c4, i4]⟩
  | finish s endTs logs hs ih => simpa [finishSession] using ih

/-- Witness for the amended C3 after one item failed with an exception. -/
theorem stats_components_eq_calculateStats_witness :
    (processItem (initSession "s4" sampleConfig [sampleMailbox] "t0")
        sampleMailbox (ItemRun.exn "t1" "t2" (some "boom"))).stats.Successful
      = (calculateStats (processItem (initSession "s4" sampleConfig [sampleMailbox] "t0")
          sampleMailbox (ItemRun.exn "t1" "t2" (some "boom"))).migrationResults).Successful ∧
    (processItem (initSession "s4" sampleConfig [sampleMailbox] "t0")
        sampleMailbox (ItemRun.exn "t1" "t2" (some "boom"))).stats.Failed
      = (calculateStats (processItem (initSession "s4" sampleConfig [sampleMailbox] "t0")
          sampleMailbox (ItemRun.exn "t1" "t2" (some "boom"))).migrationResults).Failed ∧
    (processItem (initSession "s4" sampleConfig [sampleMailbox] "t0")
        sampleMailbox (ItemRun.exn "t1" "t2" (some "boom"))).stats.InProgress
      = (calculateStats (processItem (initSession "s4" sampleConfig [sampleMailbox] "t0")
          sampleMailbox (ItemRun.exn "t1" "t2" (some "boom"))).migrationResults).InProgress ∧
    (processItem (initSession "s4" sampleConfig [sampleMailbox] "t0")
        sampleMailbox (ItemRun.exn "t1" "t2" (some "boom"))).stats.Skipped
      = (calculateStats (processItem (initSession "s4" sampleConfig [sampleMailbox] "t0")
          sampleMailbox (ItemRun.exn "t1" "t2" (some "boom"))).migrationResults).Skipped :=
  stats_components_eq_calculateStats _
    (Reachable.item _ _ _ (Reachable.init "s4" sampleConfig [sampleMailbox] "t0"))

/-- C2 counterexample: `processMigration` applies no clamping to
`config.BatchSize` — with 60 records and batch size 60 the loop produces a
single batch of 60 records (above the claimed upper bound of 50), where a
clamp to [1,50] would have produced two batches of at most 50. -/
theorem batchSize_not_clamped_cex :
    (batches sixtyRows 60).length = 1 ∧
    ∃ c ∈ batches sixtyRows 60, 50 < c.length := by
  have h1 : sixtyRows = sampleMailbox :: List.replicate 59 sampleMailbox := rfl
  have hdrop : (sampleMailbox :: List.replicate 59 sampleMailbox).drop 60 = [] := by
    apply List.drop_eq_nil_of_le
    simp
  have htake : (sampleMailbox :: List.replicate 59 sampleMailbox).take 60
      = sampleMailbox :: List.replicate 59 sampleMailbox := by
    apply List.take_of_length_le
    simp
  have h2 : batches sixtyRows 60 = [sixtyRows] := by
    rw [h1, show (60 : Nat) = 59 + 1 from rfl, batches_cons]
    rw [show (59 : Nat) + 1 = 60 from rfl, hdrop, batches_nil, htake]
  refine ⟨by rw [h2]; rfl, sixtyRows, by rw [h2]; exact List.mem_singleton_self _, ?_⟩
  simp [sixtyRows]

/-- C2 amended: the batch size is NOT clamped (the [1,50] bound exists only
in the UI input element); for any records list of length `N` and any batch
size `B ≥ 1` the slicing loop produces exactly `⌈N / B⌉` batches whose
concatenation is the input list, every batch before the last has size `B`,
and the last batch has size `N mod B` (or `B` when `B` divides `N`). With
`B = 0` the source loop diverges, so nothing is claimed there. -/
theorem batches_shape (l : List MailboxRow) (B : Nat) (hB : 1 ≤ B) :
    (batches l B).length = (l.length + (B - 1)) / B ∧
    (batches l B).flatten = l ∧
    (∀ c ∈ (batches l B).dropLast, c.length = B) ∧
    (∀ c, (batches l B).getLast? = some c →
      c.length = (if l.length % B = 0 then B else l.length % B)) := by
  obtain ⟨b, rfl⟩ : ∃ b, B = b + 1 := ⟨B - 1, by omega⟩
  refine ⟨?_, batches_flatten_aux b l.length l le_rfl,
    batches_dropLast_aux b l.length l le_rfl,
    batches_getLast_aux b l.length l le_rfl⟩
  simpa using batches_length_aux b l.length l le_rfl

/-- Witness for the amended C2: three records in batches of two. -/
theorem batches_shape_witness :
    (batches [sampleMailbox, sampleMailbox, sampleMailbox] 2).length
        = ([sampleMailbox, sampleMailbox, sampleMailbox].length + (2 - 1)) / 2 ∧
    (batches [sampleMailbox, sampleMailbox, sampleMailbox] 2).flatten
        = [sampleMailbox, sampleMailbox, sampleMailbox] ∧
    (∀ c ∈ (batches [sampleMailbox, sampleMailbox, sampleMailbox] 2).dropLast,
      c.length = 2) ∧
    (∀ c, (batches [sampleMailbox, sampleMailbox, sampleMailbox] 2).getLast? = some c →
      c.length = (if [sampleMailbox, sampleMailbox, sampleMailbox].length % 2 = 0
        then 2 else [sampleMailbox, sampleMailbox, sampleMailbox].length % 2)) :=
  batches_shape [sampleMailbox, sampleMailbox, sampleMailbox] 2 (by omega)

/-- C4: an exception thrown while migrating one item of one batch is
converted into exactly one Failed outcome for that item, recorded with the
thrown Error's message; the sibling items of the batch (`pre`, `post`) and
all remaining batches (`bs2`) still contribute their own outcomes, one
each. -/
theorem item_error_isolation (s : MigrationSession)
    (bs1 bs2 : List (List (MailboxRow × ItemRun)))
    (pre post : List (MailboxRow × ItemRun))
    (mailbox : MailboxRow) (startTs endTs msg : String) :
    (runBatches s
        (bs1 ++ (pre ++ (mailbox, ItemRun.exn startTs endTs (some msg)) :: post) :: bs2)).migrationResults
      = s.migrationResults ++ bs1.flatten.map itemResult ++ pre.map itemResult
        ++ failedResult mailbox startTs endTs (some msg) :: post.map itemResult
        ++ bs2.flatten.map itemResult
    ∧ (failedResult mailbox startTs endTs (some msg)).Status = MigStatus.failed
    ∧ (failedResult mailbox startTs endTs (some msg)).ErrorMessage = msg
    ∧ (failedResult mailbox startTs endTs (some msg)).SourceEmail = mailbox.SourceEmail
    ∧ (runBatches s
        (bs1 ++ (pre ++ (mailbox, ItemRun.exn startTs endTs (some msg)) :: post) :: bs2)).migrationResults.length
      = s.migrationResults.length + bs1.flatten.length + pre.length + 1
        + post.length + bs2.flatten.length := by
  have hres : (runBatches s
      (bs1 ++ (pre ++ (mailbox, ItemRun.exn startTs endTs (some msg)) :: post) :: bs2)).migrationResults
      = s.migrationResults ++ bs1.flatten.map itemResult ++ pre.map itemResult
        ++ failedResult mailbox startTs endTs (some msg) :: post.map itemResult
        ++ bs2.flatten.map itemResult := by
    rw [runBatches_results]
    simp [List.flatten_append, List.flatten_cons, List.map_append, itemResult,
      List.append_assoc]
  refine ⟨hres, rfl, rfl, rfl, ?_⟩
  rw [hres]
  simp only [List.length_append, List.length_map, List.length_cons]
  omega

/-- C5: when the requested `sessionId` has no session at the first tick,
the stream consists of the `connected` acknowledgment and exactly one
`error` event, the stream is closed from that tick on regardless of later
store contents, and no `progress` or `complete` event is ever emitted. -/
theorem unknown_session_stream (storeAt : Nat → List (String × MigrationSession))
    (loggersAt : Nat → List (String × List LogEntry))
    (sessionId : String) (n : Nat)
    (h : getSession (storeAt 0) sessionId = none) :
    progressStream storeAt loggersAt sessionId (n + 1)
        = { events := [SSEvent.connected, SSEvent.error], closed := true }
    ∧ (progressStream storeAt loggersAt sessionId (n + 1)).events.countP
        SSEvent.isError = 1
    ∧ (progressStream storeAt loggersAt sessionId (n + 1)).events.countP
        SSEvent.isProgress = 0
    ∧ (progressStream storeAt loggersAt sessionId (n + 1)).events.countP
        SSEvent.isComplete = 0 := by
  have hview : sessionView (storeAt 0) (loggersAt 0) sessionId = none := by
    simp [sessionView, h]
  have key : ∀ m, progressStream storeAt loggersAt sessionId (m + 1)
      = { events := [SSEvent.connected, SSEvent.error], closed := true } := by
    intro m
    induction m with
    | zero => simp [progressStream, streamRun, tickOnce, hview]
    | succ m ih =>
        simp only [progressStream, streamRun] at ih ⊢
        rw [ih]
        simp [tickOnce]
  rw [key n]
  exact ⟨rfl, by decide, by decide, by decide⟩

/-- Witness for C5: empty stores, one tick. -/
theorem unknown_session_stream_witness :
    progressStream (fun _ => []) (fun _ => []) "missing" 1
        = { events := [SSEvent.connected, SSEvent.error], closed := true }
    ∧ (progressStream (fun _ => []) (fun _ => []) "missing" 1).events.countP
        SSEvent.isError = 1
    ∧ (progressStream (fun _ => []) (fun _ => []) "missing" 1).events.countP
        SSEvent.isProgress = 0
    ∧ (progressStream (fun _ => []) (fun _ => []) "missing" 1).events.countP
        SSEvent.isComplete = 0 :=
  unknown_session_stream (fun _ => []) (fun _ => []) "missing" 0 rfl

/-- C6: `validateMailbox` fails when the source does not exist or the
target address fails the regex — short-circuiting in that order and
skipping the size check, so the large-mailbox issue never appears on a
failure — and otherwise returns Warning exactly when the source size
exceeds 10000 MB and Passed otherwise, with the matching single-issue
list. -/
theorem validateMailbox_policy (mailbox : MailboxRow) (lk : SourceLookup) :
    (validateMailbox mailbox lk).ValidationStatus =
      (if lk.exists_ = false then VStatus.failed
       else if emailRegexTest mailbox.TargetEmail = false then VStatus.failed
       else if 10000 < lk.size.getD 0 then VStatus.warning
       else VStatus.passed) ∧
    (validateMailbox mailbox lk).ValidationIssues =
      (if lk.exists_ = false then ["Source mailbox not found"]
       else if emailRegexTest mailbox.TargetEmail = false then ["Invalid target email format"]
       else if 10000 < lk.size.getD 0 then
         ["Large mailbox (>10GB) - migration may take extended time"]
       else []) :=
  validateMailbox_char mailbox lk

/-- C7: against the mock connector, two `validateMailbox` runs on the same
record return the same status and the same issue list whatever the random
draws are — the existence answer is a deterministic hash of the source
email, and the random size lies in [100, 5100), below the 10000 MB warning
threshold, so the random inputs can never change status or issues. -/
theorem validate_deterministic_mock (m : MailboxRow) (r₁ r₂ : ℚ) (i₁ i₂ : Nat)
    (h₁ : 0 ≤ r₁) (h₂ : r₁ < 1) (h₃ : 0 ≤ r₂) (h₄ : r₂ < 1) :
    (validateMailbox m (mockLookup m.SourceEmail r₁ i₁)).ValidationStatus
      = (validateMailbox m (mockLookup m.SourceEmail r₂ i₂)).ValidationStatus ∧
    (validateMailbox m (mockLookup m.SourceEmail r₁ i₁)).ValidationIssues
      = (validateMailbox m (mockLookup m.SourceEmail r₂ i₂)).ValidationIssues := by
  by_cases hx : hashEmail m.SourceEmail % 10 = 0
  · simp [mockLookup, hx]
  · obtain ⟨c1, c1i⟩ := validateMailbox_char m (mockLookup m.SourceEmail r₁ i₁)
    obtain ⟨c2, c2i⟩ := validateMailbox_char m (mockLookup m.SourceEmail r₂ i₂)
    rw [c1, c1i, c2, c2i]
    have e1 : (mockLookup m.SourceEmail r₁ i₁).exists_ = true := by
      simp [mockLookup, hx]
    have e2 : (mockLookup m.SourceEmail r₂ i₂).exists_ = true := by
      simp [mockLookup, hx]
    have s1 : (mockLookup m.SourceEmail r₁ i₁).size.getD 0 = r₁ * 5000 + 100 := by
      simp [mockLookup, hx]
    have s2 : (mockLookup m.SourceEmail r₂ i₂).size.getD 0 = r₂ * 5000 + 100 := by
      simp [mockLookup, hx]
    have ns1 : ¬ ((10000 : ℚ) < r₁ * 5000 + 100) := by nlinarith
    have ns2 : ¬ ((10000 : ℚ) < r₂ * 5000 + 100) := by nlinarith
    rw [e1, e2, s1, s2]
    simp [ns1, ns2]

/-- Witness for C7 at two different random draws on the sample record. -/
theorem validate_deterministic_mock_witness :
    (0 : ℚ) ≤ 0 ∧ (0 : ℚ) < 1 ∧ (0 : ℚ) ≤ 1 / 2 ∧ (1 / 2 : ℚ) < 1 ∧
    ((validateMailbox sampleMailbox (mockLookup sampleMailbox.SourceEmail 0 0)).ValidationStatus
        = (validateMailbox sampleMailbox
            (mockLookup sampleMailbox.SourceEmail (1 / 2) 5)).ValidationStatus ∧
      (validateMailbox sampleMailbox (mockLookup sampleMailbox.SourceEmail 0 0)).ValidationIssues
        = (validateMailbox sampleMailbox
            (mockLookup sampleMailbox.SourceEmail (1 / 2) 5)).ValidationIssues) :=
  ⟨le_refl 0, by norm_num, by norm_num, by norm_num,
    validate_deterministic_mock sampleMailbox 0 (1 / 2) 0 5
      (le_refl 0) (by norm_num) (by norm_num) (by norm_num)⟩

/-- C8 counterexample: a 65-minute migration records Duration "65:00" —
the minutes field carries total minutes and is NOT reduced mod 60, so the
value does not wrap (a wrapped MM:SS rendering would read "05:00"). -/
theorem duration_no_wrap_cex :
    (simulateMigration sampleMailbox wrapEnv).Duration = some "65:00"
    ∧ 60 ≤ wrapEnv.durationMs / 60000
    ∧ padTwo (wrapEnv.durationMs / 60000 % 60) ++ ":"
        ++ padTwo (wrapEnv.durationMs % 60000 / 1000) = "05:00"
    ∧ (simulateMigration sampleMailbox wrapEnv).Duration
        ≠ some (padTwo (wrapEnv.durationMs / 60000 % 60) ++ ":"
            ++ padTwo (wrapEnv.durationMs % 60000 / 1000)) := by
  decide

/-- C8 amended: the recorded Duration is the wall-clock delta rendered as
total-minutes:seconds, both fields zero-padded to at least two digits with
no hour component; the two rendered numbers encode the delta exactly to
the second (minutes * 60 + seconds = total seconds, seconds < 60), so
durations of 60 minutes or more do not wrap — the minutes field simply
grows past 59. -/
theorem duration_total_minutes (mailbox : MailboxRow) (env : ItemEnv) :
    (simulateMigration mailbox env).Duration = some (formatDuration env.durationMs)
    ∧ env.durationMs / 60000 * 60 + env.durationMs % 60000 / 1000
        = env.durationMs / 1000
    ∧ env.durationMs % 60000 / 1000 < 60 := by
  refine ⟨?_, by omega, by omega⟩
  simp only [simulateMigration]
  split <;> rfl

/-- C9: the CSV export has exactly one data row per migration outcome (in
order, after the header), the HTML export has exactly one table row per
outcome, and in both the rendered status text is the stored outcome
status's string. -/
theorem report_row_roundtrip (results : List MigrationResult) (stats : MigrationStats)
    (genTime : String) (i : Nat) (h : i < results.length) :
    (csvReport results).length = results.length + 1
    ∧ (csvReport results)[i + 1]? = some (csvRow results[i])
    ∧ (csvRow results[i])[3]? = some (results[i].Status.text)
    ∧ generateReportHTML results stats genTime
        = reportHead stats genTime ++ String.join (results.map reportRowHtml) ++ reportTail
    ∧ (results.map reportRowHtml).length = results.length
    ∧ (results.map reportRowHtml)[i]? = some (reportRowHtml results[i])
    ∧ (∃ pre post, reportRowHtml results[i] = pre ++ (results[i].Status.text ++ post)) := by
  refine ⟨by simp [csvReport], ?_, rfl, rfl, by simp, ?_, ?_⟩
  · simp [csvReport, List.getElem?_cons_succ, List.getElem?_map,
      List.getElem?_eq_getElem h]
  · simp [List.getElem?_map, List.getElem?_eq_getElem h]
  · refine ⟨"\n                <tr>\n                    <td>" ++ (results[i].DisplayName
        ++ ("</td>\n                    <td>" ++ (results[i].SourceEmail
        ++ ("</td>\n                    <td>" ++ (results[i].TargetEmail
        ++ ("</td>\n                    <td class=\""
          ++ (statusClass results[i] ++ "\">"))))))),
      "</td>\n                    <td>" ++ (jsOr results[i].Duration "N/A"
        ++ ("</td>\n                    <td>" ++ (toString results[i].ItemsMigrated
        ++ ("</td>\n                    <td>" ++ (results[i].DataMigrated
        ++ "</td>\n                </tr>"))))), ?_⟩
    simp [reportRowHtml, String.append_assoc]

/-- Witness for C9 on a one-outcome session. -/
theorem report_row_roundtrip_witness :
    (csvReport [sampleResult]).length = [sampleResult].length + 1
    ∧ (csvReport [sampleResult])[0 + 1]? = some (csvRow sampleResult)
    ∧ (csvRow sampleResult)[3]? = some (sampleResult.Status.text)
    ∧ generateReportHTML [sampleResult] (calculateStats [sampleResult]) "now"
        = reportHead (calculateStats [sampleResult]) "now"
          ++ String.join ([sampleResult].map reportRowHtml) ++ reportTail
    ∧ ([sampleResult].map reportRowHtml).length = [sampleResult].length
    ∧ ([sampleResult].map reportRowHtml)[0]? = some (reportRowHtml sampleResult)
    ∧ (∃ pre post, reportRowHtml sampleResult
        = pre ++ (sampleResult.Status.text ++ post)) :=
  report_row_roundtrip [sampleResult] (calculateStats [sampleResult]) "now" 0
    (by norm_num)

end ExchangeMigration
